import Mathlib

/-!
# VariableFields (Source/CNTKv2LibraryDll/Variable.h)

A shallow embedding of `CNTK::VariableFields`: its checked constructor,
`AsString` and `Clone`, with the collaborators that live in other files of the
library (shape rendering, axis rendering, kind names, tensor deep copy, the uid
generator, the global rendering flag) taken as parameters.
-/

set_option autoImplicit false
set_option linter.dupNamespace false
set_option maxRecDepth 10000

namespace CNTK

/-- Modelled from the spec: the closed enumeration `VariableKind` (declared in
CNTKLibrary.h): one of Input, Output, Parameter, Constant, Placeholder. -/
inductive VariableKind where
  | Input
  | Output
  | Parameter
  | Constant
  | Placeholder
  deriving DecidableEq

/-- Modelled from the spec: the element type tag `DataType` (declared in
CNTKLibrary.h), e.g. float32 / float64. -/
inductive DataType where
  | Unknown
  | Float
  | Double
  deriving DecidableEq

/-- Modelled from the spec: `NDShape` (declared in CNTKLibrary.h), an ordered
sequence of dimension sizes. -/
abbrev NDShape := List Nat

/-- Modelled from the spec: `Axis` (declared in CNTKLibrary.h) exposes a name
and an equality; two dynamic axes are equal when their names are. -/
structure Axis where
  m_name : String
  deriving DecidableEq

/-- The accessor `Axis::Name()`. -/
def Axis.Name (a : Axis) : String := a.m_name

/-- Modelled from the spec: `NDArrayView` (declared in CNTKLibrary.h), the tensor
value behind an `NDArrayViewPtr`: it exposes an element-type query; `m_storage`
identifies the buffer that holds its contents. -/
structure NDArrayView where
  m_dataType : DataType
  m_storage : Nat
  deriving DecidableEq

/-- The accessor `NDArrayView::GetDataType()`. -/
def NDArrayView.GetDataType (v : NDArrayView) : DataType := v.m_dataType

/-- A nullable `NDArrayViewPtr`. -/
abbrev NDArrayViewPtr := Option NDArrayView

/-- Modelled from the spec: `ParameterInitializer` (declared in CNTKLibrary.h),
an opaque initializer policy, identified by a tag. -/
structure ParameterInitializer where
  m_config : Nat
  deriving DecidableEq

/-- Modelled from the spec: `DeviceDescriptor` (declared in CNTKLibrary.h), an
opaque target device, identified by its id. -/
structure DeviceDescriptor where
  m_deviceId : Nat
  deriving DecidableEq

/-- A `Function*`: the address of the owning function; `none` is `nullptr`. -/
abbrev FunctionPtr := Option Nat

/-- A `Variable` handle as stored in `m_blockFunctionVariableMapping`: the identity
of the data fields it shares; a default-constructed `Variable` is `none`. -/
abbrev Variable := Option Nat

/-- The exceptions the operations raise. `InvalidArgument` carries the formatted
message. `AlreadyInitializedError` and `UninitializedValueError` are the error
kinds the spec names for arming an initializer and for reading a value.
`NullDereference` stands for dereferencing an empty `unique_ptr`. -/
inductive Exception where
  | InvalidArgument (what : String)
  | AlreadyInitializedError
  | UninitializedValueError
  | NullDereference
  deriving DecidableEq

/-- The collaborators of `VariableFields` that are defined in other files of the
library. `σ` is the state of the uid generator.
* `VariableKindName`: Utils.h, the display name of a kind;
* `ShapeAsString`: `NDShape::AsString`;
* `DynamicAxesAsString`: Utils.h, rendering of an axis list (given the flag);
* `IsReversingTensorShapesInErrorMessagesEnabled`: the process-wide flag;
* `DeepClone`: `NDArrayView::DeepClone`;
* `GenerateUid`: `Internal::GenerateUid`, returning the uid and the next state;
* `InvokeInitializer`: the initializer policy run on a device for a shape and an
  element type, producing the tensor value. -/
structure Externals (σ : Type) where
  VariableKindName : VariableKind → String
  ShapeAsString : NDShape → String
  DynamicAxesAsString : List Axis → Bool → String
  IsReversingTensorShapesInErrorMessagesEnabled : Bool
  DeepClone : NDArrayView → NDArrayView
  GenerateUid : σ → VariableKind → String × σ
  InvokeInitializer : ParameterInitializer → DeviceDescriptor → NDShape → DataType → NDArrayView

/-- The data members of `struct VariableFields` (Variable.h, lines 19-33).
`m_initValueFlag` records whether the `once_flag` is allocated. -/
structure VariableFields where
  m_shape : NDShape
  m_varKind : VariableKind
  m_dataType : DataType
  m_ownerFunction : FunctionPtr
  m_initValueFlag : Bool
  m_value : NDArrayViewPtr
  m_valueInitializer : Option ParameterInitializer
  m_valueInitializationDevice : Option DeviceDescriptor
  m_needsGradient : Bool
  m_name : String
  m_dynamicAxes : List Axis
  m_isSparse : Bool
  m_uid : String
  m_valueTimeStamp : Nat
  m_blockFunctionVariableMapping : Variable
  deriving DecidableEq

/-- The method `VariableFields::AsString` (lines 51-65). -/
def VariableFields.AsString {σ : Type} (E : Externals σ) (self : CNTK.VariableFields) : String :=
  let wss := E.VariableKindName self.m_varKind ++ "('"
  let wss := if self.m_name ≠ "" then wss ++ self.m_name else wss ++ self.m_uid
  let reverse := E.IsReversingTensorShapesInErrorMessagesEnabled
  if reverse then
    wss ++ "', " ++ E.DynamicAxesAsString self.m_dynamicAxes reverse ++ ", "
      ++ E.ShapeAsString self.m_shape ++ ")"
  else
    wss ++ "', " ++ E.ShapeAsString self.m_shape ++ ", "
      ++ E.DynamicAxesAsString self.m_dynamicAxes reverse ++ ")"

/-- What `%S` prints of `s.c_str()`: a C string ends at its first NUL character,
so the characters of `s` from an embedded NUL on are not printed. -/
def c_str (s : String) : String :=
  ⟨s.data.takeWhile (fun c => c ≠ Char.ofNat 0)⟩

/-- The message of the type check (line 39), `%S` replaced by what it prints of
`AsString().c_str()`. -/
def dataTypeMismatchMessage (asString : String) : String :=
  "The DataType of the Parameter/Constant Variable '" ++ c_str asString
    ++ "' does not match the DataType of the associated Value"

/-- The message of the uniqueness check (line 47), each `%S` replaced by what it
prints of `Name().c_str()` and of `AsString().c_str()`. -/
def duplicateAxisMessage (axisName asString : String) : String :=
  "Dynamic axis named " ++ c_str axisName
    ++ " is specified more than once for Variable '" ++ c_str asString ++ "'"

/-- The call `uniqueDynamicAxis.insert(a)` on a `std::unordered_set<Axis>` held as a
duplicate-free list: the new set and whether the insertion took place. -/
def unorderedSetInsert (s : List Axis) (a : Axis) : List Axis × Bool :=
  if a ∈ s then (s, false) else (a :: s, true)

/-- The loop of lines 43-48 over the remaining axes, `uniqueDynamicAxis` being the
set built so far and `asString` the rendering of the object under construction. -/
def validateDynamicAxes (asString : String) :
    List Axis → List Axis → Except Exception Unit
  | _, [] => .ok ()
  | uniqueDynamicAxis, currentDynamicAxis :: rest =>
    let retVal := unorderedSetInsert uniqueDynamicAxis currentDynamicAxis
    if !retVal.2 then
      .error (.InvalidArgument (duplicateAxisMessage currentDynamicAxis.Name asString))
    else
      validateDynamicAxes asString retVal.1 rest

/-- The member initializer list of the constructor (line 36); the members it does
not mention are default-initialized (null pointers, an empty `Variable`). -/
def VariableFields.memberInit (shape : NDShape) (varType : VariableKind) (type : DataType)
    (ownerFunction : FunctionPtr) (value : NDArrayViewPtr) (needsGradient : Bool)
    (dynamicAxes : List Axis) (isSparse : Bool) (name uid : String) : CNTK.VariableFields :=
  { m_shape := shape
    m_varKind := varType
    m_dataType := type
    m_ownerFunction := ownerFunction
    m_initValueFlag := false
    m_value := value
    m_valueInitializer := none
    m_valueInitializationDevice := none
    m_needsGradient := needsGradient
    m_name := name
    m_dynamicAxes := dynamicAxes
    m_isSparse := isSparse
    m_uid := uid
    m_valueTimeStamp := 0
    m_blockFunctionVariableMapping := none }

/-- The constructor `VariableFields::VariableFields` (lines 35-49): the member
initializers, then the type check, then the uniqueness check. -/
def VariableFields.VariableFields {σ : Type} (E : Externals σ)
    (shape : NDShape) (varType : VariableKind) (type : DataType)
    (ownerFunction : FunctionPtr) (value : NDArrayViewPtr) (needsGradient : Bool)
    (dynamicAxes : List Axis) (isSparse : Bool) (name uid : String) :
    Except Exception CNTK.VariableFields :=
  let self := VariableFields.memberInit shape varType type ownerFunction value needsGradient
    dynamicAxes isSparse name uid
  if (match value with
      | some v => decide (type ≠ v.GetDataType)
      | none => false) then
    .error (.InvalidArgument (dataTypeMismatchMessage (VariableFields.AsString E self)))
  else
    match validateDynamicAxes (VariableFields.AsString E self) [] dynamicAxes with
    | .error e => .error e
    | .ok () => .ok self

/-- Modelled from the spec: `VariableFields::SetValueInitialization` is only declared
in Variable.h (line 91). It attaches the policy and the target device and arms the
one-shot trigger; attaching to a node that already has a value or a pending
initializer fails with `AlreadyInitializedError`. -/
def VariableFields.SetValueInitialization (self : CNTK.VariableFields)
    (initializationConfig : ParameterInitializer) (device : DeviceDescriptor) :
    Except Exception CNTK.VariableFields :=
  if self.m_value.isSome || self.m_valueInitializer.isSome then
    .error .AlreadyInitializedError
  else
    .ok { self with
      m_initValueFlag := true
      m_valueInitializer := some initializationConfig
      m_valueInitializationDevice := some device }

/-- Modelled from the spec: the accessor `GetValue` is not in Variable.h. A present
value is returned as it is; otherwise an armed initializer is triggered, once: it
is run for the shape and the data type of the node and fills a value of that data
type, the value is stored, the initializer is consumed (the node goes from pending
to set), the version counter is incremented and the value returned; with neither
a value nor an initializer it fails with `UninitializedValueError`. (One caller;
the callers of a race are serialized by the `once_flag`.) -/
def VariableFields.GetValue {σ : Type} (E : Externals σ) (self : CNTK.VariableFields) :
    Except Exception (NDArrayView × CNTK.VariableFields) :=
  match self.m_value with
  | some v => .ok (v, self)
  | none =>
    match self.m_valueInitializer, self.m_valueInitializationDevice with
    | some initializer, some device =>
      let v : NDArrayView :=
        { E.InvokeInitializer initializer device self.m_shape self.m_dataType with
          m_dataType := self.m_dataType }
      .ok (v, { self with
        m_value := some v
        m_valueInitializer := none
        m_valueInitializationDevice := none
        m_valueTimeStamp := self.m_valueTimeStamp + 1 })
    | _, _ => .error .UninitializedValueError

/-- The message of the owner check in `Clone` (line 70), `%S` replaced by what it
prints of `AsString().c_str()`. -/
def cannotBeClonedMessage (asString : String) : String :=
  "Output variable '" ++ c_str asString ++ "' cannot be cloned."

/-- The method `VariableFields::Clone` (lines 67-89), threading the state of the uid generator.
The generator runs while the constructor arguments are evaluated, so its state has
advanced whenever the owner check is passed. -/
def VariableFields.Clone {σ : Type} (E : Externals σ) (st : σ) (self : CNTK.VariableFields) :
    Except Exception CNTK.VariableFields × σ :=
  if self.m_ownerFunction ≠ none then
    (.error (.InvalidArgument (cannotBeClonedMessage (VariableFields.AsString E self))), st)
  else
    let value : NDArrayViewPtr :=
      match self.m_value with
      | some v => some (E.DeepClone v)
      | none => none
    let uid := E.GenerateUid st self.m_varKind
    match VariableFields.VariableFields E self.m_shape self.m_varKind self.m_dataType
        self.m_ownerFunction value self.m_needsGradient self.m_dynamicAxes self.m_isSparse
        self.m_name uid.1 with
    | .error e => (.error e, uid.2)
    | .ok clone =>
      match self.m_valueInitializer with
      | some valueInitializer =>
        match self.m_valueInitializationDevice with
        | some device =>
          (VariableFields.SetValueInitialization clone valueInitializer device, uid.2)
        | none => (.error .NullDereference, uid.2)
      | none => (.ok clone, uid.2)

/-- The operations that act on a constructed node: arming a deferred initializer
and reading (hence materializing) the value. -/
inductive NodeOp where
  | SetValueInitialization (initializationConfig : ParameterInitializer)
      (device : DeviceDescriptor)
  | GetValue
  deriving DecidableEq

/-- The node after one operation; an operation that raises leaves it as it was. -/
def applyOp {σ : Type} (E : Externals σ) (node : CNTK.VariableFields) :
    NodeOp → CNTK.VariableFields
  | .SetValueInitialization initializationConfig device =>
    match VariableFields.SetValueInitialization node initializationConfig device with
    | .ok node2 => node2
    | .error _ => node
  | .GetValue =>
    match VariableFields.GetValue E node with
    | .ok (_, node2) => node2
    | .error _ => node

/-- The node after a sequence of operations, applied from left to right. -/
def applyOps {σ : Type} (E : Externals σ) (node : CNTK.VariableFields) (ops : List NodeOp) :
    CNTK.VariableFields :=
  ops.foldl (applyOp E) node

/-- The display names of the kinds, as `VariableKindName` (Utils.h) is expected to
give them. -/
def sampleKindName : VariableKind → String
  | .Input => "Input"
  | .Output => "Output"
  | .Parameter => "Parameter"
  | .Constant => "Constant"
  | .Placeholder => "Placeholder"

/-- Modelled from the spec: a concrete choice of the collaborators, used to run
the operations on examples. Shapes render as `[2 x 3]`, axis lists as `[a, b]`
(reversed under the flag), a deep copy lives in a new buffer, the initializer
produces a value of the requested element type, and the uid generator returns
the kind name followed by a running counter. -/
def sampleExternals (reverse : Bool) : Externals Nat :=
  { VariableKindName := sampleKindName
    ShapeAsString := fun shape => "[" ++ String.intercalate " x " (shape.map toString) ++ "]"
    DynamicAxesAsString := fun axes rev =>
      "[" ++ String.intercalate ", " ((if rev then axes.reverse else axes).map Axis.Name) ++ "]"
    IsReversingTensorShapesInErrorMessagesEnabled := reverse
    DeepClone := fun v => { v with m_storage := v.m_storage + 1 }
    GenerateUid := fun counter kind => (sampleKindName kind ++ toString counter, counter + 1)
    InvokeInitializer := fun initializer _ _ type =>
      { m_dataType := type, m_storage := 1000 + initializer.m_config } }

/-- What the constructor establishes and the operations on a node keep: the axes
are pairwise distinct, a value that is present has the data type of the node and
no initializer is pending beside it, and an initializer comes with its device. -/
def VariableFields.Consistent (node : CNTK.VariableFields) : Prop :=
  node.m_dynamicAxes.Nodup ∧
  (∀ x, node.m_value = some x →
    node.m_dataType = x.GetDataType ∧ node.m_valueInitializer = none) ∧
  (∀ valueInitializer, node.m_valueInitializer = some valueInitializer →
    ∃ device, node.m_valueInitializationDevice = some device)

/-- A free-standing Float parameter `W` holding a value, as the constructor
leaves it. -/
def sampleParameter : CNTK.VariableFields :=
  VariableFields.memberInit [2, 3] .Parameter .Float none (some ⟨.Float, 7⟩) true
    [Axis.mk "time", Axis.mk "batch"] false "W" "Parameter4"

/-- A free-standing Float parameter `W` without a value, as the constructor
leaves it. -/
def sampleLazyParameter : CNTK.VariableFields :=
  VariableFields.memberInit [2, 3] .Parameter .Float none none true [] false "W" "Parameter0"

/-- An output variable: its owner is the function at address 64. -/
def sampleOutput : CNTK.VariableFields :=
  VariableFields.memberInit [2, 3] .Output .Float (some 64) none false [Axis.mk "time"] false
    "" "Output9"

/-- The clone of `sampleParameter` made when the uid generator stands at 5. -/
def sampleParameterClone : CNTK.VariableFields :=
  { sampleParameter with m_value := some ⟨.Float, 8⟩, m_uid := "Parameter5" }

/-- The parameter `sampleLazyParameter` with an initializer armed. -/
def sampleArmedParameter : CNTK.VariableFields :=
  { sampleLazyParameter with
    m_initValueFlag := true
    m_valueInitializer := some ⟨3⟩
    m_valueInitializationDevice := some ⟨0⟩ }

/-- The clone of `sampleArmedParameter` made when the uid generator stands at 1. -/
def sampleArmedParameterClone : CNTK.VariableFields :=
  { sampleArmedParameter with m_uid := "Parameter1" }

/-- The parameter `sampleParameter` standing for another variable inside a block
function. -/
def sampleMappedParameter : CNTK.VariableFields :=
  { sampleParameter with m_blockFunctionVariableMapping := some 12 }

/-- The display string as the spec words it: the kind name, then in quotes the
name (the uid when the name is empty), then the shape string and the axes string,
the two swapped when the rendering-order flag is on. -/
def renderAsSpecified (kindName name uid shapeString axesString : String) (flag : Bool) :
    String :=
  let id := if name = "" then uid else name
  let a := if flag then axesString else shapeString
  let b := if flag then shapeString else axesString
  kindName ++ "('" ++ id ++ "', " ++ a ++ ", " ++ b ++ ")"

/-- The string `s` occurs in `msg` as a run of consecutive characters. -/
def isSubstringOf (s msg : String) : Prop :=
  List.IsInfix s.data msg.data

/-- The two invariants of the data model: no two dynamic axes are equal, and a
value that is present has the data type of the node. -/
def VariableFields.WellFormed (node : CNTK.VariableFields) : Prop :=
  (∀ i j, i < j → j < node.m_dynamicAxes.length →
    node.m_dynamicAxes[i]? ≠ node.m_dynamicAxes[j]?) ∧
  (∀ x, node.m_value = some x → x.GetDataType = node.m_dataType)

/-- A free-standing Float parameter without a name, holding a value, as the
constructor leaves it. -/
def sampleUnnamedParameter : CNTK.VariableFields :=
  VariableFields.memberInit [2, 3] .Parameter .Float none (some ⟨.Float, 7⟩) true [] false ""
    "Parameter0"

/-- The parameter `sampleParameter` after its value has been replaced three
times. -/
def sampleVersionedParameter : CNTK.VariableFields :=
  { sampleParameter with m_valueTimeStamp := 3 }

/-- A node that agrees with `sampleParameter` on kind, name, uid, shape and dynamic
axes, and differs from it in every other member. -/
def sampleParameterTwin : CNTK.VariableFields :=
  { sampleParameter with
    m_dataType := .Double
    m_ownerFunction := some 64
    m_initValueFlag := true
    m_value := none
    m_valueInitializer := some ⟨3⟩
    m_valueInitializationDevice := some ⟨0⟩
    m_needsGradient := false
    m_isSparse := true
    m_valueTimeStamp := 9
    m_blockFunctionVariableMapping := some 12 }

/-! ## Auxiliary facts about the messages and the uniqueness loop -/

/-- The two messages of the constructor start with different letters. -/
theorem duplicateAxisMessage_ne_dataTypeMismatchMessage (axisName s t : String) :
    duplicateAxisMessage axisName s ≠ dataTypeMismatchMessage t := by
  intro h
  have h2 := congrArg String.data h
  simp only [duplicateAxisMessage, dataTypeMismatchMessage, String.data_append] at h2
  have h3 := congrArg List.head? h2
  simp at h3

/-- The uniqueness loop raises nothing but the duplicate-axis message. -/
theorem validateDynamicAxes_error (asString : String) (rest seen : List Axis) (e : Exception)
    (h : validateDynamicAxes asString seen rest = .error e) :
    ∃ a, a ∈ rest ∧ e = .InvalidArgument (duplicateAxisMessage a.Name asString) := by
  induction rest generalizing seen with
  | nil => simp [validateDynamicAxes] at h
  | cons a rest ih =>
    simp only [validateDynamicAxes, unorderedSetInsert] at h
    by_cases ha : a ∈ seen
    · simp [ha] at h
      exact ⟨a, by simp, h.symm⟩
    · simp [ha] at h
      obtain ⟨b, hb, he⟩ := ih _ h
      exact ⟨b, by simp [hb], he⟩

/-- The uniqueness loop, started with the set of an already scanned duplicate-free
prefix, stops at the first axis that repeats an earlier one. -/
theorem validateDynamicAxes_firstDuplicate (asString : String) (rest seen pre : List Axis)
    (hseen : ∀ a, a ∈ seen ↔ a ∈ pre) (hpre : pre.Nodup) (hdup : ¬ (pre ++ rest).Nodup) :
    ∃ p a r, pre ++ rest = p ++ a :: r ∧ p.Nodup ∧ a ∈ p ∧
      validateDynamicAxes asString seen rest
        = .error (.InvalidArgument (duplicateAxisMessage a.Name asString)) := by
  induction rest generalizing seen pre with
  | nil => simp [hpre] at hdup
  | cons a rest ih =>
    by_cases ha : a ∈ seen
    · refine ⟨pre, a, rest, rfl, hpre, (hseen a).1 ha, ?_⟩
      simp [validateDynamicAxes, unorderedSetInsert, ha]
    · have hapre : a ∉ pre := fun h => ha ((hseen a).2 h)
      have hpre2 : (pre ++ [a]).Nodup := by
        rw [List.nodup_append]
        refine ⟨hpre, List.nodup_singleton a, ?_⟩
        intro x hx hx2
        rw [List.mem_singleton] at hx2
        exact hapre (hx2 ▸ hx)
      have hseen2 : ∀ b, b ∈ a :: seen ↔ b ∈ pre ++ [a] := by
        intro b
        simp only [List.mem_cons, List.mem_append, List.mem_singleton, hseen b,
          List.not_mem_nil, or_false]
        exact or_comm
      have hdup2 : ¬ ((pre ++ [a]) ++ rest).Nodup := by
        simpa [List.append_assoc] using hdup
      obtain ⟨p, b, r, hsplit, hp, hb, hres⟩ := ih (a :: seen) (pre ++ [a]) hseen2 hpre2 hdup2
      refine ⟨p, b, r, ?_, hp, hb, ?_⟩
      · simpa [List.append_assoc] using hsplit
      · simpa [validateDynamicAxes, unorderedSetInsert, ha] using hres

/-- On pairwise-distinct axes the uniqueness loop runs to its end. -/
theorem validateDynamicAxes_ok (asString : String) (rest seen pre : List Axis)
    (hseen : ∀ a, a ∈ seen ↔ a ∈ pre) (hnodup : (pre ++ rest).Nodup) :
    validateDynamicAxes asString seen rest = .ok () := by
  induction rest generalizing seen pre with
  | nil => rfl
  | cons a rest ih =>
    have hapre : a ∉ pre := by
      intro h
      rw [List.nodup_append] at hnodup
      exact hnodup.2.2 h (List.mem_cons_self a rest)
    have ha : a ∉ seen := fun h => hapre ((hseen a).1 h)
    have hseen2 : ∀ b, b ∈ a :: seen ↔ b ∈ pre ++ [a] := by
      intro b
      simp only [List.mem_cons, List.mem_append, List.mem_singleton, hseen b,
        List.not_mem_nil, or_false]
      exact or_comm
    have hnodup2 : ((pre ++ [a]) ++ rest).Nodup := by
      simpa [List.append_assoc] using hnodup
    simpa [validateDynamicAxes, unorderedSetInsert, ha] using ih (a :: seen) (pre ++ [a])
      hseen2 hnodup2

/-- When the type check passes, the constructor is decided by the uniqueness loop. -/
theorem VariableFields_ctor_of_typeOk {σ : Type} (E : Externals σ)
    (shape : NDShape) (varType : VariableKind) (type : DataType)
    (ownerFunction : FunctionPtr) (value : NDArrayViewPtr) (needsGradient : Bool)
    (dynamicAxes : List Axis) (isSparse : Bool) (name uid : String)
    (htype : value = none ∨ ∃ v, value = some v ∧ type = v.GetDataType) :
    VariableFields.VariableFields E shape varType type ownerFunction value needsGradient
        dynamicAxes isSparse name uid
      = (match validateDynamicAxes (VariableFields.AsString E
          (VariableFields.memberInit shape varType type ownerFunction value needsGradient
            dynamicAxes isSparse name uid)) [] dynamicAxes with
        | .error e => Except.error e
        | .ok () => Except.ok (VariableFields.memberInit shape varType type ownerFunction
            value needsGradient dynamicAxes isSparse name uid)) := by
  rcases htype with rfl | ⟨v, rfl, hv⟩
  · simp [VariableFields.VariableFields]
  · simp [VariableFields.VariableFields, hv]

/-- A mismatched initial value makes the constructor raise the type-mismatch
message. -/
theorem construct_typeMismatch_aux {σ : Type} (E : Externals σ)
    (shape : NDShape) (varType : VariableKind) (type : DataType)
    (ownerFunction : FunctionPtr) (value : NDArrayViewPtr) (needsGradient : Bool)
    (dynamicAxes : List Axis) (isSparse : Bool) (name uid : String) (v : NDArrayView)
    (hv : value = some v) (hne : type ≠ v.GetDataType) :
    VariableFields.VariableFields E shape varType type ownerFunction value needsGradient
        dynamicAxes isSparse name uid
      = .error (.InvalidArgument (dataTypeMismatchMessage (VariableFields.AsString E
          (VariableFields.memberInit shape varType type ownerFunction value needsGradient
            dynamicAxes isSparse name uid)))) := by
  subst hv
  simp [VariableFields.VariableFields, hne]

/-- The message of the owner check differs from the type-mismatch message. -/
theorem dataTypeMismatchMessage_ne_cannotBeClonedMessage (s t : String) :
    dataTypeMismatchMessage s ≠ cannotBeClonedMessage t := by
  intro h
  have h2 := congrArg String.data h
  simp only [cannotBeClonedMessage, dataTypeMismatchMessage, String.data_append] at h2
  have h3 := congrArg List.head? h2
  simp at h3

/-- The message of the owner check differs from the duplicate-axis message. -/
theorem duplicateAxisMessage_ne_cannotBeClonedMessage (axisName s t : String) :
    duplicateAxisMessage axisName s ≠ cannotBeClonedMessage t := by
  intro h
  have h2 := congrArg String.data h
  simp only [cannotBeClonedMessage, duplicateAxisMessage, String.data_append] at h2
  have h3 := congrArg List.head? h2
  simp at h3

/-- An error of the constructor carries one of its two messages. -/
theorem VariableFields_ctor_error {σ : Type} (E : Externals σ)
    (shape : NDShape) (varType : VariableKind) (type : DataType)
    (ownerFunction : FunctionPtr) (value : NDArrayViewPtr) (needsGradient : Bool)
    (dynamicAxes : List Axis) (isSparse : Bool) (name uid : String) (e : Exception)
    (h : VariableFields.VariableFields E shape varType type ownerFunction value needsGradient
        dynamicAxes isSparse name uid = .error e) :
    (∃ s, e = .InvalidArgument (dataTypeMismatchMessage s)) ∨
      (∃ axisName s, e = .InvalidArgument (duplicateAxisMessage axisName s)) := by
  unfold VariableFields.VariableFields at h
  simp only at h
  split at h
  · injection h with h
    exact Or.inl ⟨_, h.symm⟩
  · split at h
    · rename_i e2 hval
      injection h with h
      obtain ⟨a, _, he⟩ := validateDynamicAxes_error _ _ _ _ hval
      exact Or.inr ⟨_, _, h ▸ he⟩
    · exact Except.noConfusion h

/-- A successful constructor returns the member-initialized object, and its
arguments passed both checks. -/
theorem VariableFields_ctor_ok {σ : Type} (E : Externals σ)
    (shape : NDShape) (varType : VariableKind) (type : DataType)
    (ownerFunction : FunctionPtr) (value : NDArrayViewPtr) (needsGradient : Bool)
    (dynamicAxes : List Axis) (isSparse : Bool) (name uid : String) (node : CNTK.VariableFields)
    (h : VariableFields.VariableFields E shape varType type ownerFunction value needsGradient
        dynamicAxes isSparse name uid = .ok node) :
    node = VariableFields.memberInit shape varType type ownerFunction value needsGradient
        dynamicAxes isSparse name uid ∧
      dynamicAxes.Nodup ∧ (∀ v, value = some v → type = v.GetDataType) := by
  have htype : ∀ v, value = some v → type = v.GetDataType := by
    intro v hv
    by_contra hne
    have := (construct_typeMismatch_aux E shape varType type ownerFunction value needsGradient
      dynamicAxes isSparse name uid v hv hne)
    rw [this] at h
    exact Except.noConfusion h
  have htype2 : value = none ∨ ∃ v, value = some v ∧ type = v.GetDataType := by
    cases value with
    | none => exact Or.inl rfl
    | some v => exact Or.inr ⟨v, rfl, htype v rfl⟩
  rw [VariableFields_ctor_of_typeOk E _ _ _ _ _ _ _ _ _ _ htype2] at h
  have hnd : dynamicAxes.Nodup := by
    by_contra hnd
    obtain ⟨p, a, r, _, _, _, hres⟩ := validateDynamicAxes_firstDuplicate
      (VariableFields.AsString E (VariableFields.memberInit shape varType type ownerFunction
        value needsGradient dynamicAxes isSparse name uid)) dynamicAxes [] [] (by simp)
      List.nodup_nil (by simpa using hnd)
    rw [hres] at h
    exact Except.noConfusion h
  rw [validateDynamicAxes_ok _ dynamicAxes [] [] (by simp) (by simpa using hnd)] at h
  injection h with h
  exact ⟨h.symm, hnd, htype⟩

/-- What a successful `Clone` tells: the source is free-standing, the generator
advanced by one call, the source passed the checks of the constructor, and the
clone is the member-initialized object on the cloned arguments, with the
initializer of the source re-attached when there is one. -/
theorem VariableFields_Clone_ok {σ : Type} (E : Externals σ) (st st2 : σ)
    (self c : CNTK.VariableFields) (h : VariableFields.Clone E st self = (.ok c, st2)) :
    self.m_ownerFunction = none ∧ st2 = (E.GenerateUid st self.m_varKind).2 ∧
      self.m_dynamicAxes.Nodup ∧
      (∀ x, self.m_value = some x → self.m_dataType = (E.DeepClone x).GetDataType) ∧
      ((self.m_valueInitializer = none ∧
          c = VariableFields.memberInit self.m_shape self.m_varKind self.m_dataType
            self.m_ownerFunction
            (match self.m_value with
              | some v => some (E.DeepClone v)
              | none => none)
            self.m_needsGradient self.m_dynamicAxes self.m_isSparse self.m_name
            (E.GenerateUid st self.m_varKind).1) ∨
        (∃ valueInitializer device, self.m_valueInitializer = some valueInitializer ∧
          self.m_valueInitializationDevice = some device ∧ self.m_value = none ∧
          c = { VariableFields.memberInit self.m_shape self.m_varKind self.m_dataType
                  self.m_ownerFunction none self.m_needsGradient self.m_dynamicAxes
                  self.m_isSparse self.m_name (E.GenerateUid st self.m_varKind).1 with
                m_initValueFlag := true
                m_valueInitializer := some valueInitializer
                m_valueInitializationDevice := some device })) := by
  unfold VariableFields.Clone at h
  by_cases howner : self.m_ownerFunction = none
  · simp only [howner, ne_eq, not_true_eq_false, if_false] at h
    cases hctor : VariableFields.VariableFields E self.m_shape self.m_varKind self.m_dataType
        none (match self.m_value with
          | some v => some (E.DeepClone v)
          | none => none) self.m_needsGradient self.m_dynamicAxes self.m_isSparse
        self.m_name (E.GenerateUid st self.m_varKind).1 with
    | error e =>
      rw [hctor] at h
      simp at h
    | ok clone =>
      rw [hctor] at h
      obtain ⟨hclone, hnd, htype⟩ := VariableFields_ctor_ok E _ _ _ _ _ _ _ _ _ _ _ hctor
      have htype2 : ∀ x, self.m_value = some x →
          self.m_dataType = (E.DeepClone x).GetDataType := by
        intro x hx
        apply htype
        rw [hx]
      cases hinit : self.m_valueInitializer with
      | none =>
        rw [hinit] at h
        simp only [Prod.mk.injEq, Except.ok.injEq] at h
        refine ⟨howner, h.2.symm, hnd, htype2, Or.inl ⟨rfl, ?_⟩⟩
        rw [← h.1, hclone, howner]
      | some valueInitializer =>
        rw [hinit] at h
        cases hdev : self.m_valueInitializationDevice with
        | none =>
          rw [hdev] at h
          simp at h
        | some device =>
          rw [hdev] at h
          simp only [Prod.mk.injEq] at h
          obtain ⟨hset, hst⟩ := h
          cases hvalue : self.m_value with
          | some x =>
            rw [hvalue] at hclone
            rw [hclone] at hset
            simp [VariableFields.SetValueInitialization, VariableFields.memberInit] at hset
          | none =>
            rw [hvalue] at hclone
            rw [hclone] at hset
            refine ⟨howner, hst.symm, hnd, fun x hx => Option.noConfusion hx,
              Or.inr ⟨valueInitializer, device, rfl, rfl, rfl, ?_⟩⟩
            simp only [VariableFields.SetValueInitialization, VariableFields.memberInit,
              Option.isSome_none, Bool.or_self, Bool.false_eq_true, if_false,
              Except.ok.injEq] at hset
            rw [← hset, howner]
            rfl
  · simp [howner] at h

/-- When `Clone` succeeds: the source is free-standing, its axes are pairwise
distinct, the copy of its value has its data type, and it does not hold both a
value and an initializer (an initializer comes with its device). -/
theorem VariableFields_Clone_succeeds {σ : Type} (E : Externals σ) (st : σ)
    (self : CNTK.VariableFields) (howner : self.m_ownerFunction = none)
    (hnodup : self.m_dynamicAxes.Nodup)
    (htype : ∀ x, self.m_value = some x → self.m_dataType = (E.DeepClone x).GetDataType)
    (hinit : self.m_valueInitializer = none ∨
      (self.m_value = none ∧ ∃ device, self.m_valueInitializationDevice = some device)) :
    ∃ c, VariableFields.Clone E st self = (.ok c, (E.GenerateUid st self.m_varKind).2) := by
  have hargs : (match self.m_value with
        | some v => some (E.DeepClone v)
        | none => none) = none ∨
      ∃ v, (match self.m_value with
        | some v => some (E.DeepClone v)
        | none => none) = some v ∧ self.m_dataType = v.GetDataType := by
    cases hvalue : self.m_value with
    | none => exact Or.inl rfl
    | some x => exact Or.inr ⟨E.DeepClone x, rfl, htype x hvalue⟩
  have hctor := VariableFields_ctor_of_typeOk E self.m_shape self.m_varKind self.m_dataType
    self.m_ownerFunction _ self.m_needsGradient self.m_dynamicAxes self.m_isSparse
    self.m_name (E.GenerateUid st self.m_varKind).1 hargs
  rw [validateDynamicAxes_ok _ self.m_dynamicAxes [] [] (by simp) (by simpa using hnodup)]
    at hctor
  unfold VariableFields.Clone
  simp only [howner, ne_eq, not_true_eq_false, if_false]
  rw [howner] at hctor
  rw [hctor]
  rcases hinit with hnone | ⟨hvalue, device, hdev⟩
  · rw [hnone]
    exact ⟨_, rfl⟩
  · cases hinit2 : self.m_valueInitializer with
    | none => exact ⟨_, rfl⟩
    | some valueInitializer =>
      rw [hdev, hvalue]
      simp [VariableFields.SetValueInitialization, VariableFields.memberInit]

/-- One operation keeps a node consistent. -/
theorem applyOp_consistent {σ : Type} (E : Externals σ) (node : CNTK.VariableFields)
    (op : NodeOp) (h : node.Consistent) : (applyOp E node op).Consistent := by
  obtain ⟨h1, h2, h3⟩ := h
  cases op with
  | SetValueInitialization initializationConfig device =>
    unfold applyOp VariableFields.SetValueInitialization
    by_cases hc : (node.m_value.isSome || node.m_valueInitializer.isSome) = true
    · simp only [hc, if_true]
      exact ⟨h1, h2, h3⟩
    · simp only [hc, if_false]
      have hvalue : node.m_value = none := by
        cases hv : node.m_value with
        | none => rfl
        | some x => simp [hv] at hc
      refine ⟨h1, ?_, ?_⟩
      · intro x hx
        rw [show ({ node with
            m_initValueFlag := true
            m_valueInitializer := some initializationConfig
            m_valueInitializationDevice := some device } : CNTK.VariableFields).m_value
          = node.m_value from rfl, hvalue] at hx
        exact Option.noConfusion hx
      · intro i _
        exact ⟨device, rfl⟩
  | GetValue =>
    unfold applyOp VariableFields.GetValue
    cases hv : node.m_value with
    | some v => exact ⟨h1, h2, h3⟩
    | none =>
      cases hi : node.m_valueInitializer with
      | none => exact ⟨h1, h2, h3⟩
      | some valueInitializer =>
        cases hd : node.m_valueInitializationDevice with
        | none => exact ⟨h1, h2, h3⟩
        | some device =>
          refine ⟨h1, ?_, ?_⟩
          · intro x hx
            simp only [Option.some.injEq] at hx
            rw [← hx]
            exact ⟨rfl, rfl⟩
          · intro i hi2
            exact Option.noConfusion hi2

/-- A sequence of operations keeps a node consistent. -/
theorem applyOps_consistent {σ : Type} (E : Externals σ) (ops : List NodeOp)
    (node : CNTK.VariableFields) (h : node.Consistent) : (applyOps E node ops).Consistent := by
  induction ops generalizing node with
  | nil => exact h
  | cons op ops ih => exact ih (applyOp E node op) (applyOp_consistent E node op h)

/-- A node returned by the constructor is consistent. -/
theorem VariableFields_ctor_consistent {σ : Type} (E : Externals σ)
    (shape : NDShape) (varType : VariableKind) (type : DataType)
    (ownerFunction : FunctionPtr) (value : NDArrayViewPtr) (needsGradient : Bool)
    (dynamicAxes : List Axis) (isSparse : Bool) (name uid : String) (node : CNTK.VariableFields)
    (h : VariableFields.VariableFields E shape varType type ownerFunction value needsGradient
        dynamicAxes isSparse name uid = .ok node) : node.Consistent := by
  obtain ⟨hnode, hnd, htype⟩ := VariableFields_ctor_ok E _ _ _ _ _ _ _ _ _ _ _ h
  subst hnode
  refine ⟨hnd, ?_, ?_⟩
  · intro x hx
    exact ⟨htype x hx, rfl⟩
  · intro i hi
    simp [VariableFields.memberInit] at hi

/-- The scenario of the spec, evaluated: the axes `[Axis("time"), Axis("time")]`
make the constructor fail with a message that names `time`. -/
theorem construct_duplicateAxis_scenario :
    VariableFields.VariableFields (sampleExternals false) [2, 3] .Parameter .Float none none
        true [Axis.mk "time", Axis.mk "time"] false "W" ""
      = .error (.InvalidArgument (duplicateAxisMessage "time"
          "Parameter('W', [2 x 3], [time, time])")) := by
  rfl

/-- The scenario of the spec, evaluated: cloning an output variable fails with the
not-cloneable message and leaves the uid generator where it was. -/
theorem clone_output_scenario :
    VariableFields.Clone (sampleExternals false) 10 sampleOutput
      = (.error (.InvalidArgument (cannotBeClonedMessage
          "Output('Output9', [2 x 3], [time])")), 10) := by
  rfl

/-- A scenario, evaluated: were the deep copy of another element type, the
constructor run by `Clone` would raise the type-mismatch message built on the
rendering of the clone under construction; for an unnamed source that rendering
shows the fresh uid and does not contain the rendering of the source. -/
theorem clone_constructor_error_scenario :
    VariableFields.Clone
        { sampleExternals false with DeepClone := fun v => { v with m_dataType := .Double } }
        1 sampleUnnamedParameter
      = (.error (.InvalidArgument (dataTypeMismatchMessage
          "Parameter('Parameter1', [2 x 3], [])")), 2) ∧
    VariableFields.AsString (sampleExternals false) sampleUnnamedParameter
      = "Parameter('Parameter0', [2 x 3], [])" ∧
    ¬ isSubstringOf "Parameter('Parameter0', [2 x 3], [])"
        (dataTypeMismatchMessage "Parameter('Parameter1', [2 x 3], [])") :=
  ⟨rfl, by decide, by unfold isSubstringOf; decide⟩

/-! ## The claims -/

/-- C1: when an initial value is present and its element type differs from the
declared data type, the constructor fails with the type-mismatch message built on
the rendering of the object under construction, whatever the other arguments are;
when no initial value is given, or its element type equals the data type, no
type-mismatch error is raised. -/
theorem construct_typeMismatch {σ : Type} (E : Externals σ)
    (shape : NDShape) (varType : VariableKind) (type : DataType)
    (ownerFunction : FunctionPtr) (value : NDArrayViewPtr) (needsGradient : Bool)
    (dynamicAxes : List Axis) (isSparse : Bool) (name uid : String) :
    ((∃ v, value = some v ∧ type ≠ v.GetDataType) →
      VariableFields.VariableFields E shape varType type ownerFunction value needsGradient
          dynamicAxes isSparse name uid
        = .error (.InvalidArgument (dataTypeMismatchMessage (VariableFields.AsString E
            (VariableFields.memberInit shape varType type ownerFunction value needsGradient
              dynamicAxes isSparse name uid))))) ∧
    ((value = none ∨ ∃ v, value = some v ∧ type = v.GetDataType) →
      ∀ s, VariableFields.VariableFields E shape varType type ownerFunction value
          needsGradient dynamicAxes isSparse name uid
        ≠ .error (.InvalidArgument (dataTypeMismatchMessage s))) := by
  constructor
  · rintro ⟨v, hv, hne⟩
    exact construct_typeMismatch_aux E shape varType type ownerFunction value needsGradient
      dynamicAxes isSparse name uid v hv hne
  · intro hok s hs
    have hs2 : (match validateDynamicAxes (VariableFields.AsString E
        (VariableFields.memberInit shape varType type ownerFunction value needsGradient
          dynamicAxes isSparse name uid)) [] dynamicAxes with
        | .error e => Except.error e
        | .ok () => Except.ok (VariableFields.memberInit shape varType type ownerFunction
            value needsGradient dynamicAxes isSparse name uid))
        = .error (.InvalidArgument (dataTypeMismatchMessage s)) := by
      rcases hok with rfl | ⟨v, rfl, hv⟩
      · simpa [VariableFields.VariableFields] using hs
      · simpa [VariableFields.VariableFields, hv] using hs
    cases hval : validateDynamicAxes (VariableFields.AsString E
        (VariableFields.memberInit shape varType type ownerFunction value needsGradient
          dynamicAxes isSparse name uid)) [] dynamicAxes with
    | error e =>
      rw [hval] at hs2
      obtain ⟨a, _, he⟩ := validateDynamicAxes_error _ _ _ _ hval
      rw [he] at hs2
      injection hs2 with hs2
      injection hs2 with hs2
      exact duplicateAxisMessage_ne_dataTypeMismatchMessage _ _ _ hs2
    | ok u =>
      rw [hval] at hs2
      simp at hs2

/-- C1 at a concrete input: a Float parameter given a Double value. -/
theorem construct_typeMismatch_witness :
    VariableFields.VariableFields (sampleExternals false) [2, 3] .Parameter .Float none
        (some ⟨.Double, 0⟩) true [⟨"time"⟩, ⟨"time"⟩] false "W" ""
      = .error (.InvalidArgument (dataTypeMismatchMessage (VariableFields.AsString
          (sampleExternals false)
          (VariableFields.memberInit [2, 3] .Parameter .Float none (some ⟨.Double, 0⟩) true
            [⟨"time"⟩, ⟨"time"⟩] false "W" "")))) :=
  (construct_typeMismatch (sampleExternals false) [2, 3] .Parameter .Float none
    (some ⟨.Double, 0⟩) true [⟨"time"⟩, ⟨"time"⟩] false "W" "").1
    ⟨⟨.Double, 0⟩, rfl, by decide⟩

/-- C2: when the type check passes and two of the dynamic axes are equal, the
constructor fails with the duplicate-axis message, and the axis it names is
`dynamicAxes[j]` for the least index `j` that repeats an earlier axis. -/
theorem construct_duplicateAxis {σ : Type} (E : Externals σ)
    (shape : NDShape) (varType : VariableKind) (type : DataType)
    (ownerFunction : FunctionPtr) (value : NDArrayViewPtr) (needsGradient : Bool)
    (dynamicAxes : List Axis) (isSparse : Bool) (name uid : String)
    (htype : value = none ∨ ∃ v, value = some v ∧ type = v.GetDataType)
    (hdup : ∃ i j, i < j ∧ j < dynamicAxes.length ∧ dynamicAxes[i]? = dynamicAxes[j]?) :
    ∃ (j : Nat) (a : Axis), dynamicAxes[j]? = some a ∧
      (∃ i, i < j ∧ dynamicAxes[i]? = some a) ∧
      (∀ j2, j2 < j → ∀ i, i < j2 → dynamicAxes[i]? ≠ dynamicAxes[j2]?) ∧
      VariableFields.VariableFields E shape varType type ownerFunction value needsGradient
          dynamicAxes isSparse name uid
        = .error (.InvalidArgument (duplicateAxisMessage a.Name (VariableFields.AsString E
            (VariableFields.memberInit shape varType type ownerFunction value needsGradient
              dynamicAxes isSparse name uid)))) := by
  have hnd : ¬ ([] ++ dynamicAxes).Nodup := by
    rw [List.nil_append, List.nodup_iff_getElem?_ne_getElem?]
    intro h
    obtain ⟨i, j, hij, hj, heq⟩ := hdup
    exact h i j hij hj heq
  obtain ⟨p, a, r, hsplit, hp, ha, hres⟩ :=
    validateDynamicAxes_firstDuplicate (VariableFields.AsString E
      (VariableFields.memberInit shape varType type ownerFunction value needsGradient
        dynamicAxes isSparse name uid)) dynamicAxes [] [] (by simp) List.nodup_nil hnd
  rw [List.nil_append] at hsplit
  refine ⟨p.length, a, ?_, ?_, ?_, ?_⟩
  · rw [hsplit, List.getElem?_append_right (Nat.le_refl _)]
    simp
  · obtain ⟨i, hi⟩ := List.getElem?_of_mem ha
    have hilt : i < p.length := by
      by_contra hge
      rw [List.getElem?_eq_none (Nat.le_of_not_lt hge)] at hi
      exact Option.noConfusion hi
    exact ⟨i, hilt, by rw [hsplit, List.getElem?_append_left hilt, hi]⟩
  · intro j2 hj2 i hi
    rw [hsplit, List.getElem?_append_left hj2, List.getElem?_append_left (Nat.lt_trans hi hj2)]
    exact List.nodup_iff_getElem?_ne_getElem?.1 hp i j2 hi hj2
  · rw [VariableFields_ctor_of_typeOk E _ _ _ _ _ _ _ _ _ _ htype, hres]

/-- C2 at the input of the scenario: the axes `[Axis("time"), Axis("time")]` fail,
and the message names `time`. -/
theorem construct_duplicateAxis_witness :
    ∃ (j : Nat) (a : Axis), [Axis.mk "time", Axis.mk "time"][j]? = some a ∧
      (∃ i, i < j ∧ [Axis.mk "time", Axis.mk "time"][i]? = some a) ∧
      (∀ j2, j2 < j → ∀ i, i < j2 →
        [Axis.mk "time", Axis.mk "time"][i]? ≠ [Axis.mk "time", Axis.mk "time"][j2]?) ∧
      VariableFields.VariableFields (sampleExternals false) [2, 3] .Parameter .Float none none
          true [Axis.mk "time", Axis.mk "time"] false "W" ""
        = .error (.InvalidArgument (duplicateAxisMessage a.Name (VariableFields.AsString
            (sampleExternals false)
            (VariableFields.memberInit [2, 3] .Parameter .Float none none true
              [Axis.mk "time", Axis.mk "time"] false "W" "")))) :=
  construct_duplicateAxis (sampleExternals false) [2, 3] .Parameter .Float none none true
    [Axis.mk "time", Axis.mk "time"] false "W" "" (Or.inl rfl)
    ⟨0, 1, by decide, by decide, by decide⟩

/-- C3: with matching types and pairwise-distinct dynamic axes the constructor
succeeds, and the node it returns has exactly the given shape, kind, data type,
owner, value, gradient flag, axes, sparsity flag, name and uid, a version counter
of 0, no initializer policy, no device, no armed trigger and no alias. -/
theorem construct_succeeds {σ : Type} (E : Externals σ)
    (shape : NDShape) (varType : VariableKind) (type : DataType)
    (ownerFunction : FunctionPtr) (value : NDArrayViewPtr) (needsGradient : Bool)
    (dynamicAxes : List Axis) (isSparse : Bool) (name uid : String)
    (htype : value = none ∨ ∃ v, value = some v ∧ type = v.GetDataType)
    (hnodup : ∀ i j, i < j → j < dynamicAxes.length → dynamicAxes[i]? ≠ dynamicAxes[j]?) :
    ∃ node, VariableFields.VariableFields E shape varType type ownerFunction value
        needsGradient dynamicAxes isSparse name uid = .ok node ∧
      node.m_shape = shape ∧ node.m_varKind = varType ∧ node.m_dataType = type ∧
      node.m_ownerFunction = ownerFunction ∧ node.m_value = value ∧
      node.m_needsGradient = needsGradient ∧ node.m_dynamicAxes = dynamicAxes ∧
      node.m_isSparse = isSparse ∧ node.m_name = name ∧ node.m_uid = uid ∧
      node.m_valueTimeStamp = 0 ∧ node.m_valueInitializer = none ∧
      node.m_valueInitializationDevice = none ∧ node.m_initValueFlag = false ∧
      node.m_blockFunctionVariableMapping = none := by
  have hnd : ([] ++ dynamicAxes).Nodup := by
    rw [List.nil_append]
    exact List.nodup_iff_getElem?_ne_getElem?.2 hnodup
  refine ⟨VariableFields.memberInit shape varType type ownerFunction value needsGradient
    dynamicAxes isSparse name uid, ?_, rfl, rfl, rfl, rfl, rfl, rfl, rfl, rfl, rfl, rfl, rfl,
    rfl, rfl, rfl, rfl⟩
  rw [VariableFields_ctor_of_typeOk E _ _ _ _ _ _ _ _ _ _ htype,
    validateDynamicAxes_ok _ dynamicAxes [] [] (by simp) hnd]

/-- C3 at a concrete input: a Float parameter with a Float value and the axes
`time`, `batch`. -/
theorem construct_succeeds_witness :
    ∃ node, VariableFields.VariableFields (sampleExternals false) [2, 3] .Parameter .Float none
        (some ⟨.Float, 7⟩) true [Axis.mk "time", Axis.mk "batch"] false "W" "Parameter4"
          = .ok node ∧
      node.m_shape = [2, 3] ∧ node.m_varKind = .Parameter ∧ node.m_dataType = .Float ∧
      node.m_ownerFunction = none ∧ node.m_value = some ⟨.Float, 7⟩ ∧
      node.m_needsGradient = true ∧ node.m_dynamicAxes = [Axis.mk "time", Axis.mk "batch"] ∧
      node.m_isSparse = false ∧ node.m_name = "W" ∧ node.m_uid = "Parameter4" ∧
      node.m_valueTimeStamp = 0 ∧ node.m_valueInitializer = none ∧
      node.m_valueInitializationDevice = none ∧ node.m_initValueFlag = false ∧
      node.m_blockFunctionVariableMapping = none :=
  construct_succeeds (sampleExternals false) [2, 3] .Parameter .Float none
    (some ⟨.Float, 7⟩) true [Axis.mk "time", Axis.mk "batch"] false "W" "Parameter4"
    (Or.inr ⟨⟨.Float, 7⟩, rfl, rfl⟩)
    (by
      intro i j hij hj
      have hj2 : j < 2 := hj
      obtain ⟨rfl, rfl⟩ : i = 0 ∧ j = 1 := by omega
      decide)

/-- C4: on a node whose owner is set, `Clone` fails with the not-cloneable message
built on the rendering of the node and returns no node; on a free-standing node
`Clone` never raises the not-cloneable error. -/
theorem clone_notCloneable {σ : Type} (E : Externals σ) (st : σ) (self : CNTK.VariableFields) :
    (self.m_ownerFunction ≠ none →
      (VariableFields.Clone E st self).1
        = .error (.InvalidArgument (cannotBeClonedMessage (VariableFields.AsString E self)))) ∧
    (self.m_ownerFunction = none →
      ∀ s, (VariableFields.Clone E st self).1
        ≠ .error (.InvalidArgument (cannotBeClonedMessage s))) := by
  constructor
  · intro howner
    simp [VariableFields.Clone, howner]
  · intro howner s hs
    unfold VariableFields.Clone at hs
    simp only [howner, ne_eq, not_true_eq_false, if_false] at hs
    cases hctor : VariableFields.VariableFields E self.m_shape self.m_varKind self.m_dataType
        none (match self.m_value with
          | some v => some (E.DeepClone v)
          | none => none) self.m_needsGradient self.m_dynamicAxes self.m_isSparse
        self.m_name (E.GenerateUid st self.m_varKind).1 with
    | error e =>
      rw [hctor] at hs
      simp only [Except.error.injEq] at hs
      rcases VariableFields_ctor_error E _ _ _ _ _ _ _ _ _ _ e hctor with ⟨t, ht⟩ | ⟨a, t, ht⟩
      · rw [ht] at hs
        injection hs with hs
        exact dataTypeMismatchMessage_ne_cannotBeClonedMessage _ _ hs
      · rw [ht] at hs
        injection hs with hs
        exact duplicateAxisMessage_ne_cannotBeClonedMessage _ _ _ hs
    | ok clone =>
      rw [hctor] at hs
      cases hinit : self.m_valueInitializer with
      | none =>
        rw [hinit] at hs
        simp at hs
      | some valueInitializer =>
        rw [hinit] at hs
        cases hdev : self.m_valueInitializationDevice with
        | none =>
          rw [hdev] at hs
          simp at hs
        | some device =>
          rw [hdev] at hs
          simp only [VariableFields.SetValueInitialization] at hs
          split at hs <;> simp at hs

/-- C4 at a concrete input: cloning an output variable fails with the
not-cloneable message. -/
theorem clone_notCloneable_witness :
    (VariableFields.Clone (sampleExternals false) 10 sampleOutput).1
      = .error (.InvalidArgument (cannotBeClonedMessage
          (VariableFields.AsString (sampleExternals false) sampleOutput))) :=
  (clone_notCloneable (sampleExternals false) 10 sampleOutput).1 (by decide)

/-- C5: for a free-standing node reached by a successful constructor followed by
any sequence of arming and reading operations, and a deep copy that preserves the
element type, `Clone` succeeds: the constructor run on the arguments of the clone
passes its type check and its uniqueness check, and the re-attachment of the
initializer is accepted; the generator has advanced by one call. -/
theorem clone_reachable_succeeds {σ : Type} (E : Externals σ)
    (hdeep : ∀ v, (E.DeepClone v).GetDataType = v.GetDataType)
    (shape : NDShape) (varType : VariableKind) (type : DataType)
    (ownerFunction : FunctionPtr) (value : NDArrayViewPtr) (needsGradient : Bool)
    (dynamicAxes : List Axis) (isSparse : Bool) (name uid : String) (node : CNTK.VariableFields)
    (hctor : VariableFields.VariableFields E shape varType type ownerFunction value
      needsGradient dynamicAxes isSparse name uid = .ok node)
    (ops : List NodeOp) (howner : (applyOps E node ops).m_ownerFunction = none) (st : σ) :
    ∃ c, VariableFields.Clone E st (applyOps E node ops)
        = (.ok c, (E.GenerateUid st (applyOps E node ops).m_varKind).2) := by
  obtain ⟨h1, h2, h3⟩ := applyOps_consistent E ops node
    (VariableFields_ctor_consistent E _ _ _ _ _ _ _ _ _ _ _ hctor)
  apply VariableFields_Clone_succeeds E st _ howner h1
  · intro x hx
    rw [hdeep x]
    exact (h2 x hx).1
  · cases hinit : (applyOps E node ops).m_valueInitializer with
    | none => exact Or.inl rfl
    | some valueInitializer =>
      refine Or.inr ⟨?_, h3 valueInitializer hinit⟩
      cases hvalue : (applyOps E node ops).m_value with
      | none => rfl
      | some x =>
        have hnone := (h2 x hvalue).2
        rw [hinit] at hnone
        exact Option.noConfusion hnone

/-- C5 at a concrete input: a parameter whose armed initializer has been
materialized is cloned. -/
theorem clone_reachable_succeeds_witness :
    ∃ c, VariableFields.Clone (sampleExternals false) 1
        (applyOps (sampleExternals false) sampleLazyParameter
          [.SetValueInitialization ⟨3⟩ ⟨0⟩, .GetValue])
        = (.ok c, ((sampleExternals false).GenerateUid 1
            (applyOps (sampleExternals false) sampleLazyParameter
              [.SetValueInitialization ⟨3⟩ ⟨0⟩, .GetValue]).m_varKind).2) :=
  clone_reachable_succeeds (sampleExternals false) (fun _ => rfl) [2, 3] .Parameter .Float
    none none true [] false "W" "Parameter0" sampleLazyParameter rfl
    [.SetValueInitialization ⟨3⟩ ⟨0⟩, .GetValue] rfl 1

/-- C6, as stated, fails: the caller may supply as uid the very string the
generator issues next; the clone of such a free-standing node has the uid of its
source. -/
theorem clone_uid_counterexample :
    VariableFields.VariableFields (sampleExternals false) [2, 3] .Parameter .Float none none
        true [] false "W" "Parameter0" = .ok sampleLazyParameter ∧
      sampleLazyParameter.m_ownerFunction = none ∧
      VariableFields.Clone (sampleExternals false) 0 sampleLazyParameter
        = (.ok sampleLazyParameter, 1) ∧
      ((sampleExternals false).GenerateUid 0 sampleLazyParameter.m_varKind).1
        = sampleLazyParameter.m_uid :=
  ⟨rfl, rfl, rfl, by decide⟩

/-- C6, amended: the uid of the node returned by `Clone` (which is returned for
free-standing nodes only) is the string the uid generator issues for the kind of
the source, the generator advancing by that one call; it differs from the uid of
the source exactly when the uid of the source is not that string. -/
theorem clone_uid_generated {σ : Type} (E : Externals σ) (st st2 : σ)
    (self c : CNTK.VariableFields) (h : VariableFields.Clone E st self = (.ok c, st2)) :
    self.m_ownerFunction = none ∧
      c.m_uid = (E.GenerateUid st self.m_varKind).1 ∧
      st2 = (E.GenerateUid st self.m_varKind).2 ∧
      (c.m_uid ≠ self.m_uid ↔ self.m_uid ≠ (E.GenerateUid st self.m_varKind).1) := by
  obtain ⟨howner, hst, _, _, hform⟩ := VariableFields_Clone_ok E _ _ _ _ h
  have huid : c.m_uid = (E.GenerateUid st self.m_varKind).1 := by
    rcases hform with ⟨_, hc⟩ | ⟨_, _, _, _, _, hc⟩ <;> rw [hc] <;> rfl
  refine ⟨howner, huid, hst, ?_⟩
  rw [huid]
  exact ⟨fun hne heq => hne heq.symm, fun hne heq => hne heq.symm⟩

/-- C6, amended, at a concrete input: the clone of `Parameter4`, made when the
generator stands at 5, is `Parameter5`. -/
theorem clone_uid_generated_witness :
    sampleParameter.m_ownerFunction = none ∧
      sampleParameterClone.m_uid
        = ((sampleExternals false).GenerateUid 5 sampleParameter.m_varKind).1 ∧
      6 = ((sampleExternals false).GenerateUid 5 sampleParameter.m_varKind).2 ∧
      (sampleParameterClone.m_uid ≠ sampleParameter.m_uid ↔
        sampleParameter.m_uid
          ≠ ((sampleExternals false).GenerateUid 5 sampleParameter.m_varKind).1) :=
  clone_uid_generated (sampleExternals false) 5 6 sampleParameter sampleParameterClone rfl

/-- C7: the node returned by `Clone` on a free-standing node has the shape, kind,
data type, owner (hence none), gradient flag, dynamic axes, sparsity flag and
name of its source; the initializer policy is the one of the source too, with its
device, so that only the uid, the value, the version counter and the alias may
differ. -/
theorem clone_copies_fields {σ : Type} (E : Externals σ) (st st2 : σ)
    (self c : CNTK.VariableFields) (howner : self.m_ownerFunction = none)
    (h : VariableFields.Clone E st self = (.ok c, st2)) :
    c.m_shape = self.m_shape ∧ c.m_varKind = self.m_varKind ∧
      c.m_dataType = self.m_dataType ∧ c.m_ownerFunction = self.m_ownerFunction ∧
      c.m_ownerFunction = none ∧ c.m_needsGradient = self.m_needsGradient ∧
      c.m_dynamicAxes = self.m_dynamicAxes ∧ c.m_isSparse = self.m_isSparse ∧
      c.m_name = self.m_name ∧ c.m_valueInitializer = self.m_valueInitializer ∧
      (self.m_valueInitializer ≠ none →
        c.m_valueInitializationDevice = self.m_valueInitializationDevice) := by
  obtain ⟨_, _, _, _, hform⟩ := VariableFields_Clone_ok E _ _ _ _ h
  rcases hform with ⟨hnone, hc⟩ | ⟨i, d, hi, hd, _, hc⟩
  · rw [hc]
    exact ⟨rfl, rfl, rfl, rfl, howner, rfl, rfl, rfl, rfl, hnone.symm,
      fun hne => absurd hnone hne⟩
  · rw [hc]
    exact ⟨rfl, rfl, rfl, rfl, howner, rfl, rfl, rfl, rfl, hi.symm, fun _ => hd.symm⟩

/-- C7 at a concrete input: the clone of the parameter `W`. -/
theorem clone_copies_fields_witness :
    sampleParameterClone.m_shape = sampleParameter.m_shape ∧
      sampleParameterClone.m_varKind = sampleParameter.m_varKind ∧
      sampleParameterClone.m_dataType = sampleParameter.m_dataType ∧
      sampleParameterClone.m_ownerFunction = sampleParameter.m_ownerFunction ∧
      sampleParameterClone.m_ownerFunction = none ∧
      sampleParameterClone.m_needsGradient = sampleParameter.m_needsGradient ∧
      sampleParameterClone.m_dynamicAxes = sampleParameter.m_dynamicAxes ∧
      sampleParameterClone.m_isSparse = sampleParameter.m_isSparse ∧
      sampleParameterClone.m_name = sampleParameter.m_name ∧
      sampleParameterClone.m_valueInitializer = sampleParameter.m_valueInitializer ∧
      (sampleParameter.m_valueInitializer ≠ none →
        sampleParameterClone.m_valueInitializationDevice
          = sampleParameter.m_valueInitializationDevice) :=
  clone_copies_fields (sampleExternals false) 5 6 sampleParameter sampleParameterClone rfl rfl

/-- C8: the value of the node returned by `Clone` is present exactly when the value
of the source is; when present it is the deep copy of the value of the source,
hence not the handle of the source whenever a deep copy lives in a buffer of its
own; when the source has no value the clone has none. -/
theorem clone_value_deepCloned {σ : Type} (E : Externals σ) (st st2 : σ)
    (self c : CNTK.VariableFields) (_howner : self.m_ownerFunction = none)
    (h : VariableFields.Clone E st self = (.ok c, st2)) :
    (c.m_value.isSome = self.m_value.isSome) ∧
      (∀ x, self.m_value = some x → c.m_value = some (E.DeepClone x)) ∧
      (self.m_value = none → c.m_value = none) ∧
      ((∀ v, (E.DeepClone v).m_storage ≠ v.m_storage) →
        ∀ x, self.m_value = some x → c.m_value ≠ self.m_value) := by
  obtain ⟨_, _, _, _, hform⟩ := VariableFields_Clone_ok E _ _ _ _ h
  have hval : c.m_value = (match self.m_value with
      | some v => some (E.DeepClone v)
      | none => none) := by
    rcases hform with ⟨_, hc⟩ | ⟨_, _, _, _, hvalue, hc⟩
    · rw [hc]
      rfl
    · rw [hc, hvalue]
      rfl
  cases hvalue : self.m_value with
  | none =>
    rw [hvalue] at hval
    refine ⟨by rw [hval], fun x hx => Option.noConfusion hx, fun _ => hval, ?_⟩
    intro _ x hx
    exact Option.noConfusion hx
  | some y =>
    rw [hvalue] at hval
    refine ⟨by rw [hval]; rfl, ?_, fun hn => Option.noConfusion hn, ?_⟩
    · intro x hx
      injection hx with hx
      rw [hval, hx]
    · intro hfresh x _ heq
      rw [hval] at heq
      injection heq with heq
      exact hfresh y (congrArg NDArrayView.m_storage heq)

/-- C8 at a concrete input: the value of the clone of `W` is the deep copy, in
buffer 8, of the value in buffer 7. -/
theorem clone_value_deepCloned_witness :
    (sampleParameterClone.m_value.isSome = sampleParameter.m_value.isSome) ∧
      (∀ x, sampleParameter.m_value = some x →
        sampleParameterClone.m_value = some ((sampleExternals false).DeepClone x)) ∧
      (sampleParameter.m_value = none → sampleParameterClone.m_value = none) ∧
      ((∀ v, ((sampleExternals false).DeepClone v).m_storage ≠ v.m_storage) →
        ∀ x, sampleParameter.m_value = some x →
          sampleParameterClone.m_value ≠ sampleParameter.m_value) :=
  clone_value_deepCloned (sampleExternals false) 5 6 sampleParameter sampleParameterClone
    rfl rfl

/-- C9: when the source has an initializer policy and a target device attached, the
node returned by `Clone` has the same policy and the same device attached and its
trigger armed; when the source has no initializer policy, the clone has no policy,
no device and no trigger. -/
theorem clone_reattaches_initializer {σ : Type} (E : Externals σ) (st st2 : σ)
    (self c : CNTK.VariableFields) (_howner : self.m_ownerFunction = none)
    (h : VariableFields.Clone E st self = (.ok c, st2)) :
    (∀ valueInitializer device, self.m_valueInitializer = some valueInitializer →
        self.m_valueInitializationDevice = some device →
        c.m_valueInitializer = some valueInitializer ∧
          c.m_valueInitializationDevice = some device ∧ c.m_initValueFlag = true) ∧
      (self.m_valueInitializer = none →
        c.m_valueInitializer = none ∧ c.m_valueInitializationDevice = none ∧
          c.m_initValueFlag = false) := by
  obtain ⟨_, _, _, _, hform⟩ := VariableFields_Clone_ok E _ _ _ _ h
  rcases hform with ⟨hnone, hc⟩ | ⟨i, d, hi, hd, _, hc⟩
  · constructor
    · intro valueInitializer device hv _
      rw [hnone] at hv
      exact Option.noConfusion hv
    · intro _
      rw [hc]
      exact ⟨rfl, rfl, rfl⟩
  · constructor
    · intro valueInitializer device hv hdev
      rw [hi] at hv
      rw [hd] at hdev
      injection hv with hv
      injection hdev with hdev
      rw [hc, ← hv, ← hdev]
      exact ⟨rfl, rfl, rfl⟩
    · intro hnone
      rw [hi] at hnone
      exact Option.noConfusion hnone

/-- C9 at a concrete input: the clone of the armed parameter carries policy 3 on
device 0. -/
theorem clone_reattaches_initializer_witness :
    (∀ valueInitializer device, sampleArmedParameter.m_valueInitializer = some valueInitializer →
        sampleArmedParameter.m_valueInitializationDevice = some device →
        sampleArmedParameterClone.m_valueInitializer = some valueInitializer ∧
          sampleArmedParameterClone.m_valueInitializationDevice = some device ∧
          sampleArmedParameterClone.m_initValueFlag = true) ∧
      (sampleArmedParameter.m_valueInitializer = none →
        sampleArmedParameterClone.m_valueInitializer = none ∧
          sampleArmedParameterClone.m_valueInitializationDevice = none ∧
          sampleArmedParameterClone.m_initValueFlag = false) :=
  clone_reattaches_initializer (sampleExternals false) 1 2 sampleArmedParameter
    sampleArmedParameterClone rfl rfl

/-- C10: the node returned by `Clone` on a free-standing node has no alias, whether
or not the source has one. -/
theorem clone_drops_alias {σ : Type} (E : Externals σ) (st st2 : σ)
    (self c : CNTK.VariableFields) (_howner : self.m_ownerFunction = none)
    (h : VariableFields.Clone E st self = (.ok c, st2)) :
    c.m_blockFunctionVariableMapping = none := by
  obtain ⟨_, _, _, _, hform⟩ := VariableFields_Clone_ok E _ _ _ _ h
  rcases hform with ⟨_, hc⟩ | ⟨_, _, _, _, _, hc⟩ <;> rw [hc] <;> rfl

/-- C10 at a concrete input: the source maps to variable 12, its clone to none. -/
theorem clone_drops_alias_witness :
    sampleMappedParameter.m_blockFunctionVariableMapping = some 12 ∧
      sampleParameterClone.m_blockFunctionVariableMapping = none :=
  ⟨rfl, clone_drops_alias (sampleExternals false) 5 6 sampleMappedParameter
    sampleParameterClone rfl rfl⟩

/-- C11: `AsString` returns the kind name, then `('`, then the name when it is not
empty and the uid otherwise, then `', `, the shape string, `, `, the axes string
and `)`, the shape string and the axes string swapped when the global flag is
on; the axes string is the rendering of the dynamic axes under that flag. -/
theorem asString_eq_renderAsSpecified {σ : Type} (E : Externals σ)
    (self : CNTK.VariableFields) :
    VariableFields.AsString E self
      = renderAsSpecified (E.VariableKindName self.m_varKind) self.m_name self.m_uid
          (E.ShapeAsString self.m_shape)
          (E.DynamicAxesAsString self.m_dynamicAxes
            E.IsReversingTensorShapesInErrorMessagesEnabled)
          E.IsReversingTensorShapesInErrorMessagesEnabled := by
  unfold VariableFields.AsString renderAsSpecified
  by_cases hname : self.m_name = "" <;>
    cases hflag : E.IsReversingTensorShapesInErrorMessagesEnabled <;>
    simp [hname, String.append_assoc]

/-- C12: when the initial value has the wrong element type and the dynamic axes
hold a duplicate, the constructor raises the type-mismatch error, and not the
duplicate-axis error. -/
theorem construct_typeMismatch_first {σ : Type} (E : Externals σ)
    (shape : NDShape) (varType : VariableKind) (type : DataType)
    (ownerFunction : FunctionPtr) (value : NDArrayViewPtr) (needsGradient : Bool)
    (dynamicAxes : List Axis) (isSparse : Bool) (name uid : String)
    (hmismatch : ∃ v, value = some v ∧ type ≠ v.GetDataType)
    (_hdup : ∃ i j, i < j ∧ j < dynamicAxes.length ∧ dynamicAxes[i]? = dynamicAxes[j]?) :
    VariableFields.VariableFields E shape varType type ownerFunction value needsGradient
        dynamicAxes isSparse name uid
      = .error (.InvalidArgument (dataTypeMismatchMessage (VariableFields.AsString E
          (VariableFields.memberInit shape varType type ownerFunction value needsGradient
            dynamicAxes isSparse name uid)))) ∧
    ∀ axisName s, VariableFields.VariableFields E shape varType type ownerFunction value
        needsGradient dynamicAxes isSparse name uid
      ≠ .error (.InvalidArgument (duplicateAxisMessage axisName s)) := by
  obtain ⟨v, hv, hne⟩ := hmismatch
  have h := construct_typeMismatch_aux E shape varType type ownerFunction value needsGradient
    dynamicAxes isSparse name uid v hv hne
  refine ⟨h, ?_⟩
  intro axisName s hs
  rw [h] at hs
  injection hs with hs
  injection hs with hs
  exact duplicateAxisMessage_ne_dataTypeMismatchMessage _ _ _ hs.symm

/-- C12 at a concrete input: a Double value for a Float parameter whose axes are
`time`, `time`. -/
theorem construct_typeMismatch_first_witness :
    VariableFields.VariableFields (sampleExternals false) [2, 3] .Parameter .Float none
        (some ⟨.Double, 0⟩) true [Axis.mk "time", Axis.mk "time"] false "W" ""
      = .error (.InvalidArgument (dataTypeMismatchMessage (VariableFields.AsString
          (sampleExternals false)
          (VariableFields.memberInit [2, 3] .Parameter .Float none (some ⟨.Double, 0⟩) true
            [Axis.mk "time", Axis.mk "time"] false "W" "")))) ∧
    ∀ axisName s, VariableFields.VariableFields (sampleExternals false) [2, 3] .Parameter
        .Float none (some ⟨.Double, 0⟩) true [Axis.mk "time", Axis.mk "time"] false "W" ""
      ≠ .error (.InvalidArgument (duplicateAxisMessage axisName s)) :=
  construct_typeMismatch_first (sampleExternals false) [2, 3] .Parameter .Float none
    (some ⟨.Double, 0⟩) true [Axis.mk "time", Axis.mk "time"] false "W" ""
    ⟨⟨.Double, 0⟩, rfl, by decide⟩ ⟨0, 1, by decide, by decide, by decide⟩

/-- C13, as stated, fails: constructed with an empty uid, the node has the empty
uid, and not the string the uid generator issues for its kind. -/
theorem construct_emptyUid_counterexample :
    VariableFields.VariableFields (sampleExternals false) [2, 3] .Parameter .Float none none
        true [] false "W" ""
      = .ok (VariableFields.memberInit [2, 3] .Parameter .Float none none true [] false "W" "") ∧
    (VariableFields.memberInit [2, 3] .Parameter .Float none none true [] false "W" "").m_uid
      = "" ∧
    ((sampleExternals false).GenerateUid 0 .Parameter).1 = "Parameter0" ∧
    (VariableFields.memberInit [2, 3] .Parameter .Float none none true [] false "W" "").m_uid
      ≠ ((sampleExternals false).GenerateUid 0 .Parameter).1 :=
  ⟨rfl, rfl, by decide, by decide⟩

/-- C13, amended: the uid of the node a successful constructor returns is the uid
argument, whether that argument is empty or not. -/
theorem construct_uid_verbatim {σ : Type} (E : Externals σ)
    (shape : NDShape) (varType : VariableKind) (type : DataType)
    (ownerFunction : FunctionPtr) (value : NDArrayViewPtr) (needsGradient : Bool)
    (dynamicAxes : List Axis) (isSparse : Bool) (name uid : String) (node : CNTK.VariableFields)
    (h : VariableFields.VariableFields E shape varType type ownerFunction value needsGradient
        dynamicAxes isSparse name uid = .ok node) :
    node.m_uid = uid ∧ (uid = "" → node.m_uid = "") := by
  obtain ⟨hnode, _, _⟩ := VariableFields_ctor_ok E _ _ _ _ _ _ _ _ _ _ _ h
  subst hnode
  exact ⟨rfl, fun hempty => hempty⟩

/-- C13, amended, at a concrete input: `Parameter0` is stored as given. -/
theorem construct_uid_verbatim_witness :
    sampleLazyParameter.m_uid = "Parameter0" ∧
      ("Parameter0" = "" → sampleLazyParameter.m_uid = "") :=
  construct_uid_verbatim (sampleExternals false) [2, 3] .Parameter .Float none none true []
    false "W" "Parameter0" sampleLazyParameter rfl

/-- C15: a node returned by a successful constructor, and a node returned by a
successful `Clone`, is well-formed: no two of its dynamic axes are equal, and a
value that is present has the data type of the node (the constructor checks the
deep copy again, so nothing is assumed about it). -/
theorem construct_clone_wellFormed {σ : Type} (E : Externals σ)
    (shape : NDShape) (varType : VariableKind) (type : DataType)
    (ownerFunction : FunctionPtr) (value : NDArrayViewPtr) (needsGradient : Bool)
    (dynamicAxes : List Axis) (isSparse : Bool) (name uid : String)
    (node : CNTK.VariableFields) (st st2 : σ) (self c : CNTK.VariableFields) :
    (VariableFields.VariableFields E shape varType type ownerFunction value needsGradient
        dynamicAxes isSparse name uid = .ok node → node.WellFormed) ∧
    (VariableFields.Clone E st self = (.ok c, st2) → c.WellFormed) := by
  constructor
  · intro h
    obtain ⟨hnode, hnd, htype⟩ := VariableFields_ctor_ok E _ _ _ _ _ _ _ _ _ _ _ h
    subst hnode
    exact ⟨List.nodup_iff_getElem?_ne_getElem?.1 hnd, fun x hx => (htype x hx).symm⟩
  · intro h
    obtain ⟨_, _, hnd, htype, hform⟩ := VariableFields_Clone_ok E _ _ _ _ h
    rcases hform with ⟨_, hc⟩ | ⟨_, _, _, _, _, hc⟩
    · rw [hc]
      refine ⟨List.nodup_iff_getElem?_ne_getElem?.1 hnd, ?_⟩
      intro x hx
      cases hvalue : self.m_value with
      | none =>
        simp [VariableFields.memberInit, hvalue] at hx
      | some y =>
        simp only [VariableFields.memberInit, hvalue, Option.some.injEq] at hx
        rw [← hx]
        exact (htype y hvalue).symm
    · rw [hc]
      refine ⟨List.nodup_iff_getElem?_ne_getElem?.1 hnd, ?_⟩
      intro x hx
      simp [VariableFields.memberInit] at hx

/-- C15 at a concrete input: the parameter `W` and its clone are well-formed. -/
theorem construct_clone_wellFormed_witness :
    sampleParameter.WellFormed ∧ sampleParameterClone.WellFormed :=
  ⟨(construct_clone_wellFormed (sampleExternals false) [2, 3] .Parameter .Float none
      (some ⟨.Float, 7⟩) true [Axis.mk "time", Axis.mk "batch"] false "W" "Parameter4"
      sampleParameter 5 6 sampleParameter sampleParameterClone).1 rfl,
    (construct_clone_wellFormed (sampleExternals false) [2, 3] .Parameter .Float none
      (some ⟨.Float, 7⟩) true [Axis.mk "time", Axis.mk "batch"] false "W" "Parameter4"
      sampleParameter 5 6 sampleParameter sampleParameterClone).2 rfl⟩

/-- C16: `AsString` returns a string for every node and every value of the flag,
and two nodes that agree on kind, name, uid, shape and dynamic axes render to the
same string under the same flag, whatever their other members are. -/
theorem asString_deterministic {σ : Type} (E : Externals σ) (a b : CNTK.VariableFields)
    (hkind : a.m_varKind = b.m_varKind) (hname : a.m_name = b.m_name)
    (huid : a.m_uid = b.m_uid) (hshape : a.m_shape = b.m_shape)
    (haxes : a.m_dynamicAxes = b.m_dynamicAxes) :
    (∃ s, VariableFields.AsString E a = s) ∧
      VariableFields.AsString E a = VariableFields.AsString E b := by
  refine ⟨⟨_, rfl⟩, ?_⟩
  unfold VariableFields.AsString
  rw [hkind, hname, huid, hshape, haxes]

/-- C16 at a concrete input: the parameter `W` and a node that differs from it in
the data type, the owner, the value, the initializer, both flags, the version and
the alias render alike, with the flag on. -/
theorem asString_deterministic_witness :
    (∃ s, VariableFields.AsString (sampleExternals true) sampleParameter = s) ∧
      VariableFields.AsString (sampleExternals true) sampleParameter
        = VariableFields.AsString (sampleExternals true) sampleParameterTwin :=
  asString_deterministic (sampleExternals true) sampleParameter sampleParameterTwin
    rfl rfl rfl rfl rfl

/-- C18: the version counter of the node returned by `Clone` is 0, whatever the
version counter of the source is. -/
theorem clone_valueTimeStamp_zero {σ : Type} (E : Externals σ) (st st2 : σ)
    (self c : CNTK.VariableFields) (_howner : self.m_ownerFunction = none)
    (h : VariableFields.Clone E st self = (.ok c, st2)) :
    c.m_valueTimeStamp = 0 := by
  obtain ⟨_, _, _, _, hform⟩ := VariableFields_Clone_ok E _ _ _ _ h
  rcases hform with ⟨_, hc⟩ | ⟨_, _, _, _, _, hc⟩ <;> rw [hc] <;> rfl

/-- C18 at a concrete input: the source is at version 3, its clone at version 0. -/
theorem clone_valueTimeStamp_zero_witness :
    sampleVersionedParameter.m_valueTimeStamp = 3 ∧ sampleParameterClone.m_valueTimeStamp = 0 :=
  ⟨rfl, clone_valueTimeStamp_zero (sampleExternals false) 5 6 sampleVersionedParameter
    sampleParameterClone rfl rfl⟩

/-- C19: on a node whose owner is set, `Clone` fails with the state of the uid
generator unchanged, and its outcome is the same whatever the uid generator and
the deep copy are: neither is consulted. -/
theorem clone_owner_checked_first {σ : Type} (E : Externals σ) (st : σ)
    (self : CNTK.VariableFields) (howner : self.m_ownerFunction ≠ none)
    (deepClone : NDArrayView → NDArrayView)
    (generateUid : σ → VariableKind → String × σ) :
    VariableFields.Clone E st self
        = (.error (.InvalidArgument (cannotBeClonedMessage (VariableFields.AsString E self))),
            st) ∧
      VariableFields.Clone { E with DeepClone := deepClone, GenerateUid := generateUid } st self
        = VariableFields.Clone E st self := by
  constructor
  · simp [VariableFields.Clone, howner]
  · simp [VariableFields.Clone, howner, VariableFields.AsString]

/-- C19 at a concrete input: cloning the output variable leaves the generator at
10, also with a generator that would jump to 0 and a deep copy that would change
the element type. -/
theorem clone_owner_checked_first_witness :
    VariableFields.Clone (sampleExternals false) 10 sampleOutput
        = (.error (.InvalidArgument (cannotBeClonedMessage
            (VariableFields.AsString (sampleExternals false) sampleOutput))), 10) ∧
      VariableFields.Clone
          { sampleExternals false with
            DeepClone := fun v => { v with m_dataType := .Double }
            GenerateUid := fun _ _ => ("", 0) } 10 sampleOutput
        = VariableFields.Clone (sampleExternals false) 10 sampleOutput :=
  clone_owner_checked_first (sampleExternals false) 10 sampleOutput (by decide)
    (fun v => { v with m_dataType := .Double }) (fun _ _ => ("", 0))

end CNTK
